import Mathlib

/-!
Verification development for the FlipHawk marketplace-arbitrage front end.

Money amounts are modelled as rationals (`ℚ`).  JavaScript's falsy-coalescing
`a || b` on numeric fields (where both `undefined` and `0` are falsy) is
modelled by `jsOr` over `Option ℚ`.  `Math.floor` becomes `Int.floor`, and
`parseFloat(x.toFixed(2))` becomes `round2` (round to two decimals, ties up).
Calls to `Math.random()` are modelled as explicit rational parameters in
`[0, 1)`.
-/

/-- Semantics of the JavaScript expression `v || d` for a numeric field `v`
that may be absent (`undefined`) or present: both `undefined` and `0` are
falsy, anything else is returned as-is. -/
def jsOr (v : Option ℚ) (d : ℚ) : ℚ :=
  match v with
  | none => d
  | some x => if x = 0 then d else x

/-- Semantics of `Math.floor` on a rational, returned as a rational. -/
def floorQ (x : ℚ) : ℚ := ((Int.floor x : ℤ) : ℚ)

/-- Semantics of `parseFloat(x.toFixed(2))`: round to two decimal places,
ties rounded up. -/
def round2 (x : ℚ) : ℚ := ((Int.floor (x * 100 + 1/2) : ℤ) : ℚ) / 100

/-! ## Spec formulas (refinement targets)

These definitions follow the specification's words, to be compared with the
definitions embedded from the source. -/

/-- Spec formula: `netProfit = grossProfit − marketplaceFee − shippingFee −
estimatedTax`. -/
def specNetProfit (grossProfit marketplaceFee shippingFee estimatedTax : ℚ) : ℚ :=
  grossProfit - marketplaceFee - shippingFee - estimatedTax

/-- Spec formula: `roiPercent = netProfit / (buyPrice + estimatedTax +
shippingFee) × 100`. -/
def specRoiPercent (netProfit buyPrice estimatedTax shippingFee : ℚ) : ℚ :=
  netProfit / (buyPrice + estimatedTax + shippingFee) * 100

/-- Spec fee model: marketplace fee = 10% of the sell price (default). -/
def specMarketplaceFee (sellPrice : ℚ) : ℚ := sellPrice * (10/100)

/-- Spec fee model: shipping fee = fixed $5 default when unknown. -/
def specShippingDefault : ℚ := 5

/-- Spec fee model: estimated tax = 8% of the buy price (default). -/
def specEstimatedTax (buyPrice : ℚ) : ℚ := buyPrice * (8/100)

/-! ## Embedding of `displayResults` in `src/script.js` (lines 706–731)

One result record as consumed by `displayResults`; every numeric field the
function reads is optional, mirroring the duck-typed JS object. -/

structure ScriptResult where
  netProfit : Option ℚ
  profit : Option ℚ
  buyPrice : Option ℚ
  price : Option ℚ
  sellPrice : Option ℚ
  sell_price : Option ℚ
  platformFee : Option ℚ
  buyShipping : Option ℚ
  netProfitPercentage : Option ℚ
  profitPercentage : Option ℚ
  confidence : Option ℚ
  similarity_score : Option ℚ
deriving DecidableEq

/-- A `ScriptResult` with every field absent, used as a base for examples. -/
def ScriptResult.empty : ScriptResult :=
  ⟨none, none, none, none, none, none, none, none, none, none, none, none⟩

/-- Embeds `const buyPrice = result.buyPrice || result.price || 0;`. -/
def scriptBuyPrice (r : ScriptResult) : ℚ := jsOr r.buyPrice (jsOr r.price 0)

/-- Embeds `const sellPrice = result.sellPrice || result.sell_price || 0;`. -/
def scriptSellPrice (r : ScriptResult) : ℚ := jsOr r.sellPrice (jsOr r.sell_price 0)

/-- Embeds `const profit = result.netProfit || result.profit || (sellPrice - buyPrice);`. -/
def scriptProfit (r : ScriptResult) : ℚ :=
  jsOr r.netProfit (jsOr r.profit (scriptSellPrice r - scriptBuyPrice r))

/-- Embeds `const tax = buyPrice * 0.08;`. -/
def scriptTax (r : ScriptResult) : ℚ := scriptBuyPrice r * (8/100)

/-- Embeds `const platformFee = result.platformFee || sellPrice * 0.1;`. -/
def scriptPlatformFee (r : ScriptResult) : ℚ :=
  jsOr r.platformFee (scriptSellPrice r * (10/100))

/-- Embeds `const shipping = result.buyShipping || 0;`. -/
def scriptShipping (r : ScriptResult) : ℚ := jsOr r.buyShipping 0

/-- Embeds `const netProfit = result.netProfit || (profit - tax - platformFee);`. -/
def scriptNetProfit (r : ScriptResult) : ℚ :=
  jsOr r.netProfit (scriptProfit r - scriptTax r - scriptPlatformFee r)

/-- Embeds `const roi = (netProfit / (buyPrice + tax + shipping)) * 100;`. -/
def scriptRoi (r : ScriptResult) : ℚ :=
  scriptNetProfit r / (scriptBuyPrice r + scriptTax r + scriptShipping r) * 100

/-- Embeds `const confidence = result.confidence || result.similarity_score || 85;`. -/
def scriptConfidence (r : ScriptResult) : ℚ :=
  jsOr r.confidence (jsOr r.similarity_score 85)

/-! ## Embedding of `generateSimulatedResults` in `src/static/js/scan.js`
(lines 906–947)

Each loop iteration draws four `Math.random()` values that feed the numeric
fields: one for the buy price, one for the markup, one for shipping, one for
the confidence score.  They are modelled as explicit parameters. -/

structure SimRands where
  priceRoll : ℚ
  markupRoll : ℚ
  shippingRoll : ℚ
  confidenceRoll : ℚ
deriving DecidableEq

/-- Embeds `const baseBuyPrice = Math.floor(Math.random() * 400) + 50;`. -/
def simBaseBuyPrice (r : SimRands) : ℚ := floorQ (r.priceRoll * 400) + 50

/-- Embeds `const baseSellPrice = baseBuyPrice * (Math.random() * 0.5 + 1.3);`. -/
def simBaseSellPrice (r : SimRands) : ℚ :=
  simBaseBuyPrice r * (r.markupRoll * (5/10) + 13/10)

/-- Embeds `const marketplaceFee = baseSellPrice * 0.12;`. -/
def simMarketplaceFee (r : SimRands) : ℚ := simBaseSellPrice r * (12/100)

/-- Embeds `const shippingFee = Math.floor(Math.random() * 10) + 5;`. -/
def simShippingFee (r : SimRands) : ℚ := floorQ (r.shippingRoll * 10) + 5

/-- Embeds `const profit = baseSellPrice - baseBuyPrice - marketplaceFee - shippingFee;`. -/
def simProfit (r : SimRands) : ℚ :=
  simBaseSellPrice r - simBaseBuyPrice r - simMarketplaceFee r - simShippingFee r

/-- Embeds `const profitPercentage = (profit / baseBuyPrice) * 100;`. -/
def simProfitPercentage (r : SimRands) : ℚ :=
  simProfit r / simBaseBuyPrice r * 100

/-- Embeds `const confidence = Math.floor(Math.random() * 20) + 75;`. -/
def simConfidence (r : SimRands) : ℚ := floorQ (r.confidenceRoll * 20) + 75

/-- The numeric fields of one opportunity object pushed by the simulator,
with `toFixed(2)` applied where the source applies it. -/
structure SimOpportunity where
  buyPrice : ℚ
  sellPrice : ℚ
  profit : ℚ
  profitPercentage : ℚ
  feeMarketplace : ℚ
  feeShipping : ℚ
  confidence : ℚ
deriving DecidableEq

/-- Embeds the `opportunities.push({...})` record of one loop iteration:
every price-like field goes through `parseFloat(x.toFixed(2))`. -/
def simOpportunity (r : SimRands) : SimOpportunity :=
  ⟨round2 (simBaseBuyPrice r), round2 (simBaseSellPrice r),
   round2 (simProfit r), round2 (simProfitPercentage r),
   round2 (simMarketplaceFee r), round2 (simShippingFee r),
   simConfidence r⟩

/-! ## Embedding of `displayDeals` in `src/unnamed/part_001` (lines 263–273)

A deal object as consumed by `displayDeals`; only the numeric fields the fee
computation reads are modelled. -/

structure Deal where
  buyPrice : ℚ
  sellPrice : ℚ
  profit : ℚ
  profitPercentage : ℚ
  confidence : ℚ
deriving DecidableEq

/-- Embeds `const estimatedTax = deal.buyPrice * 0.08;`. -/
def dealEstimatedTax (d : Deal) : ℚ := d.buyPrice * (8/100)

/-- Embeds `const estimatedShipping = 5.99;`. -/
def dealEstimatedShipping : ℚ := 599/100

/-- Embeds `const totalCost = deal.buyPrice + estimatedTax + estimatedShipping;`. -/
def dealTotalCost (d : Deal) : ℚ := d.buyPrice + dealEstimatedTax d + dealEstimatedShipping

/-- Embeds `const netProfit = deal.sellPrice - totalCost;`. -/
def dealNetProfit (d : Deal) : ℚ := d.sellPrice - dealTotalCost d

/-- Embeds `const netProfitPercentage = (netProfit / totalCost) * 100;`. -/
def dealNetProfitPercentage (d : Deal) : ℚ := dealNetProfit d / dealTotalCost d * 100

/-! ## Embedding of the scan-form submit handler in `src/unnamed/part_001`
(lines 155–180) -/

/-- Outcome of the submit handler: one of the three early-return alerts, or
the scan actually starting (loading UI plus the POST to the back end). -/
inductive SubmitOutcome where
  | alertSelectCategory
  | alertSelectSubcategory
  | alertTooManySubcategories
  | scanStarted (category : String) (subcategories : List String)
deriving DecidableEq

/-- Embeds the submit handler's guard sequence: empty category alerts,
zero selected subcategories alerts, more than five alerts, otherwise the
scan request is issued with the selected values. -/
def scanFormSubmit (category : String) (selectedSubcategories : List String) :
    SubmitOutcome :=
  if category = "" then .alertSelectCategory
  else if selectedSubcategories.length = 0 then .alertSelectSubcategory
  else if selectedSubcategories.length > 5 then .alertTooManySubcategories
  else .scanStarted category selectedSubcategories

/-! ## Embedding of the confidence display in `src/static/js/connector.js`
(line 398) and `src/unnamed/part_010` (line 592) -/

/-- The two optional fields both card builders coalesce over. -/
structure CardFields where
  similarity : Option ℚ
  confidence : Option ℚ
deriving DecidableEq

/-- Embeds `const similarity = result.similarity || result.confidence || 70;`
from `createResultCard` in `src/static/js/connector.js`. -/
def connectorSimilarity (result : CardFields) : ℚ :=
  jsOr result.similarity (jsOr result.confidence 70)

/-- Embeds `const similarity = opportunity.similarity || opportunity.confidence || 70;`
from `createResultCard` in `src/unnamed/part_010`. -/
def part010Similarity (opportunity : CardFields) : ℚ :=
  jsOr opportunity.similarity (jsOr opportunity.confidence 70)

/-! ## Stable descending sort

Embeds `opportunities.sort((a, b) => b.profit - a.profit)` from
`src/static/js/scan.js` line 948.  `Array.prototype.sort` is stable
(ECMAScript 2019), and with that comparator it orders by the key,
descending, keeping equal keys in their original relative order; this is
exactly insertion sort that lets an element pass only strictly smaller
keys. -/

def insertDesc {α : Type} (key : α → ℚ) (x : α) : List α → List α
  | [] => [x]
  | y :: ys => if key y ≤ key x then x :: y :: ys else y :: insertDesc key x ys

def stableSortDesc {α : Type} (key : α → ℚ) : List α → List α
  | [] => []
  | x :: xs => insertDesc key x (stableSortDesc key xs)

/-- Embeds the final sorting step of `generateSimulatedResults`: the list of
pushed opportunities sorted by `profit`, highest first. -/
def generateSimulatedResults (rolls : List SimRands) : List SimOpportunity :=
  stableSortDesc SimOpportunity.profit (rolls.map simOpportunity)

/-! ## Embedding of `displayResults` and `fetchScanResults` in
`src/unnamed/part_010` (lines 452–537) -/

/-- What `displayResults` renders into the results container: either the
no-results message or the results header plus one card per opportunity. -/
inductive RenderOutcome where
  | noResultsMessage
  | resultsHeader (count : Nat)
deriving DecidableEq

/-- Embeds the branch structure of `displayResults` in `src/unnamed/part_010`:
an empty (or missing) opportunity array renders the 'No Opportunities Found'
message and returns; otherwise the header reports the count and a card is
built per opportunity. -/
def displayResultsP010 {α : Type} (opportunities : List α) : RenderOutcome :=
  if opportunities.length = 0 then .noResultsMessage
  else .resultsHeader opportunities.length

/-- The parsed JSON body of a successful `/api/v1/scan/` response. -/
structure ScanResponse (α : Type) where
  arbitrage_opportunities : List α

/-- Embeds the success handler of `fetchScanResults` in `src/unnamed/part_010`
(lines 462–469): it declares `const opportunities = [];` and passes that fresh
empty array to `displayResults`, never reading
`resultsData.arbitrage_opportunities`. -/
def fetchScanResultsOnSuccessP010 {α : Type} (resultsData : ScanResponse α) :
    RenderOutcome :=
  let opportunities : List α := []
  displayResultsP010 opportunities

/-! ## Embedding of `pollScanProgress` in `src/unnamed/part_010` (lines 312–384)

JavaScript identifier resolution is modelled explicitly for the success
handler, because its first statement mentions `resultsData`: evaluating an
identifier bound in no enclosing scope raises a `ReferenceError`, which
rejects the handler's promise and lands in the `.catch` branch. -/

/-- The identifiers bound in the scopes enclosing the success handler of the
progress poll: its own parameter, `pollScanProgress` locals, the
DOMContentLoaded closure's bindings and function declarations, and the
browser globals the handler uses. -/
def pollSuccessScopeP010 : List String :=
  ["progressData", "scanId", "consecutiveErrors", "maxErrors",
   "categoryCards", "subcategoryPanel", "subcategoryGrid", "selectedCount",
   "searchButton", "loadingSpinner", "progressContainer", "progressBar",
   "scanStatus", "resultsContainer", "selectedCategory",
   "selectedSubcategories", "scanInProgress", "currentScanId",
   "pollingInterval", "initEventListeners", "showSubcategories",
   "toggleSubcategory", "updateSelectedCount", "updateSearchButton",
   "abortScan", "startScan", "pollScanProgress", "updateStatusMessage",
   "fetchScanResults", "displayResults", "createResultCard", "showToast",
   "console", "document", "fetch", "clearInterval", "setInterval",
   "setTimeout", "window"]

/-- The body of one `/api/progress/` poll parsed successfully. -/
structure ProgressData where
  progress : ℚ
  status : String
deriving DecidableEq

/-- Result of running the poll's success handler on one response body. -/
inductive PollTickResult where
  | handled (progress : ℚ) (status : String)
  | caught (message : String)
deriving DecidableEq

/-- Embeds the success handler at lines 337–358 of `src/unnamed/part_010`.
Its first statement is `console.log('Raw API response:', resultsData);`; if
`resultsData` resolves in scope the handler goes on to reset the error
counter and process `progressData`, otherwise the lookup throws and the
exception is caught by the `.catch` branch. -/
def pollSuccessHandlerP010 (progressData : ProgressData) : PollTickResult :=
  if pollSuccessScopeP010.contains "resultsData" then
    .handled progressData.progress progressData.status
  else
    .caught "ReferenceError: resultsData is not defined"

/-- The mutable state the polling loop touches: the consecutive-error
counter, whether the interval is still running, and the toast shown when
polling gives up. -/
structure PollState where
  consecutiveErrors : Nat
  pollingActive : Bool
  toastMessage : Option String
deriving DecidableEq

/-- State when `pollScanProgress` starts: `let consecutiveErrors = 0;` and a
fresh interval. -/
def pollInitStateP010 : PollState := ⟨0, true, none⟩

/-- Embeds `const maxErrors = 5;` (line 319 of `src/unnamed/part_010`). -/
def maxErrorsP010 : Nat := 5

/-- Embeds one interval tick whose HTTP fetch succeeded: the success handler
runs; if it throws, the `.catch` branch increments `consecutiveErrors` and,
once it reaches `maxErrors`, clears the interval and shows the
lost-connection toast (lines 359–384). -/
def pollTickP010 (s : PollState) (progressData : ProgressData) : PollState :=
  if s.pollingActive then
    match pollSuccessHandlerP010 progressData with
    | .handled _ _ => ⟨0, s.pollingActive, s.toastMessage⟩
    | .caught _ =>
        let n := s.consecutiveErrors + 1
        if maxErrorsP010 ≤ n then
          ⟨n, false, some "Lost connection to server. Please try again."⟩
        else ⟨n, s.pollingActive, s.toastMessage⟩
  else s

/-- Runs the polling loop over a sequence of successful poll responses. -/
def pollRunP010 (ticks : List ProgressData) : PollState :=
  ticks.foldl pollTickP010 pollInitStateP010

/-! ## Embedding of `monitorScanProgress` in `src/static/js/scan.js`
(lines 750–756) -/

/-- Embeds the terminal check of the progress poll in
`src/static/js/scan.js`: `progress >= 100 && (status === 'completed' ||
status === 'completed_no_results' || status === 'failed')` decides whether
polling stops and the results are fetched (rather than treating the status
as an error). -/
def monitorTerminalCheck (progress : ℚ) (status : String) : Bool :=
  decide (progress ≥ 100) &&
    (status == "completed" || status == "completed_no_results" || status == "failed")

/-! ## Spec-modelled back end (Scan Orchestrator and Opportunity Builder)

The repository under `src/` ships only front-end scripts; the back end that
`/run_scan` and `/api/v1/scan/` reach (the Normalizer, Similarity Scorer,
Opportunity Builder, Ranker and Scan Orchestrator of spec sections 4.1–4.5)
is not in `src/`.  The definitions below are therefore modelled from the
spec's words so that claims about scan termination can be settled. -/

/-- Modelled from the spec: the canonical `Listing` shape of section 3 (the
optional image and model-number fields are omitted as no claim reads them). -/
structure Listing where
  title : String
  price : ℚ
  condition : String
  marketplace : String
  link : String
deriving DecidableEq

/-- Lower-cased whitespace-split tokens of a title. -/
def titleTokens (t : String) : List String :=
  (t.toLower.splitOn " ").filter (fun s => !(s == ""))

/-- Modelled from the spec: the Similarity Scorer's core textual measure, a
normalized token-set similarity over lower-cased titles (section 4.2); empty
titles short-circuit to similarity 0. -/
def tokenSetSimilarity (a b : String) : ℚ :=
  let ta := (titleTokens a).dedup
  let tb := (titleTokens b).dedup
  let uni := ta ++ tb.filter (fun x => !(ta.contains x))
  if uni.length = 0 then 0
  else ((ta.filter (fun x => tb.contains x)).length : ℚ) / (uni.length : ℚ)

/-- All unordered pairs of elements of a list, each pair once. -/
def allPairs {α : Type} : List α → List (α × α)
  | [] => []
  | x :: xs => xs.map (fun y => (x, y)) ++ allPairs xs

/-- Modelled from the spec: CandidatePair generation of section 4.3 — every
unordered pair of listings where one price is strictly lower than the other
becomes `(buy, sell)` with the cheaper side as buy; equal prices produce no
pair. -/
def candidatePairs (listings : List Listing) : List (Listing × Listing) :=
  (allPairs listings).filterMap (fun p =>
    if p.1.price < p.2.price then some (p.1, p.2)
    else if p.2.price < p.1.price then some (p.2, p.1)
    else none)

/-- Modelled from the spec: the `Opportunity` record of section 3. -/
structure Opportunity where
  buyListing : Listing
  sellListing : Listing
  netProfit : ℚ
  roiPercent : ℚ
  confidence : ℚ
  subcategory : String
deriving DecidableEq

/-- Modelled from the spec: one opportunity built from a candidate pair with
the section 4.3 fee model (10% marketplace fee on the sell price, $5 default
shipping, 8% estimated tax on the buy price) and the section 3 formulas for
net profit and ROI; the confidence is the title similarity scaled to 0–100. -/
def mkOpportunity (buy sell : Listing) (subcategory : String) : Opportunity :=
  let gross := sell.price - buy.price
  let fee := specMarketplaceFee sell.price
  let ship := specShippingDefault
  let tax := specEstimatedTax buy.price
  let net := specNetProfit gross fee ship tax
  ⟨buy, sell, net, specRoiPercent net buy.price tax ship,
   tokenSetSimilarity buy.title sell.title * 100, subcategory⟩

/-- Modelled from the spec: the Opportunity Builder of section 4.3 — pairs
below the 70% similarity threshold are discarded, and so are opportunities
with non-positive net profit. -/
def buildOpportunities (listings : List Listing) (subcategory : String) :
    List Opportunity :=
  (candidatePairs listings).filterMap (fun p =>
    if tokenSetSimilarity p.1.title p.2.title < 7/10 then none
    else
      let o := mkOpportunity p.1 p.2 subcategory
      if o.netProfit ≤ 0 then none else some o)

/-- Modelled from the spec: the result of one scan — the ranked opportunity
list together with the terminal status string exposed to the polling API. -/
structure ScanResult where
  opportunities : List Opportunity
  status : String
deriving DecidableEq

/-- Modelled from the spec: `runScan` of section 4.5 restricted to the part
the claims exercise — it iterates the requested subcategories in order over
the listings the scraping collaborator returned, feeds each batch to the
Opportunity Builder, aggregates, ranks descending by the default sort key,
and terminates in the normal state `completed_no_results` when zero
qualifying opportunities exist (never `failed`, which is reserved for a
total fetch failure), or `completed` otherwise. -/
def runScan (subLists : List (String × List Listing)) : ScanResult :=
  let opps := (subLists.map (fun p => buildOpportunities p.2 p.1)).flatten
  let ranked := stableSortDesc Opportunity.roiPercent opps
  if ranked.length = 0 then ⟨[], "completed_no_results"⟩
  else ⟨ranked, "completed"⟩

/-! ## Helper lemmas -/

theorem insertDesc_perm {α : Type} (key : α → ℚ) (x : α) (l : List α) :
    (insertDesc key x l).Perm (x :: l) := by
  induction l with
  | nil => exact List.Perm.refl _
  | cons y ys ih =>
      simp only [insertDesc]
      split
      · exact List.Perm.refl _
      · exact (ih.cons y).trans (List.Perm.swap x y ys)

theorem mem_insertDesc {α : Type} (key : α → ℚ) (x b : α) (l : List α)
    (hb : b ∈ insertDesc key x l) : b = x ∨ b ∈ l := by
  have := (insertDesc_perm key x l).mem_iff.mp hb
  simpa using this

theorem sorted_insertDesc {α : Type} (key : α → ℚ) (x : α) (l : List α)
    (h : l.Sorted (fun a b => key b ≤ key a)) :
    (insertDesc key x l).Sorted (fun a b => key b ≤ key a) := by
  induction l with
  | nil => simp [insertDesc]
  | cons y ys ih =>
      rw [List.sorted_cons] at h
      obtain ⟨hy, hys⟩ := h
      simp only [insertDesc]
      split
      case isTrue hxy =>
        rw [List.sorted_cons]
        refine ⟨?_, ?_⟩
        · intro b hb
          rcases List.mem_cons.mp hb with rfl | hb
          · exact hxy
          · exact le_trans (hy b hb) hxy
        · rw [List.sorted_cons]
          exact ⟨hy, hys⟩
      case isFalse hxy =>
        rw [List.sorted_cons]
        refine ⟨?_, ih hys⟩
        intro b hb
        rcases mem_insertDesc key x b ys hb with rfl | hb
        · exact le_of_lt (lt_of_not_le hxy)
        · exact hy b hb

theorem stableSortDesc_perm {α : Type} (key : α → ℚ) (l : List α) :
    (stableSortDesc key l).Perm l := by
  induction l with
  | nil => exact List.Perm.refl _
  | cons x xs ih =>
      exact (insertDesc_perm key x (stableSortDesc key xs)).trans (ih.cons x)

theorem sorted_stableSortDesc {α : Type} (key : α → ℚ) (l : List α) :
    (stableSortDesc key l).Sorted (fun a b => key b ≤ key a) := by
  induction l with
  | nil => simp [stableSortDesc]
  | cons x xs ih => exact sorted_insertDesc key x _ ih

theorem filter_insertDesc {α : Type} (key : α → ℚ) (x : α) (l : List α) (c : ℚ)
    (hl : l.Sorted (fun a b => key b ≤ key a)) :
    (insertDesc key x l).filter (fun a => key a == c) =
      if key x = c then x :: l.filter (fun a => key a == c)
      else l.filter (fun a => key a == c) := by
  induction l with
  | nil =>
      by_cases hxc : key x = c <;>
        simp [insertDesc, List.filter_cons, beq_iff_eq, hxc]
  | cons y ys ih =>
      rw [List.sorted_cons] at hl
      obtain ⟨hy, hys⟩ := hl
      simp only [insertDesc]
      split
      case isTrue hxy =>
        by_cases hxc : key x = c
        · simp [List.filter_cons, hxc]
        · simp [List.filter_cons, hxc]
      case isFalse hxy =>
        have hyx : key x < key y := lt_of_not_le hxy
        by_cases hxc : key x = c
        · have hyc : ¬ (key y = c) := by
            intro hc
            exact absurd (hc ▸ hyx) (by simp [hxc])
          simp only [List.filter_cons]
          rw [ih hys]
          simp [hxc, hyc]
        · simp only [List.filter_cons]
          rw [ih hys]
          by_cases hyc : key y = c <;> simp [hxc, hyc]

theorem filter_stableSortDesc {α : Type} (key : α → ℚ) (l : List α) (c : ℚ) :
    (stableSortDesc key l).filter (fun a => key a == c) =
      l.filter (fun a => key a == c) := by
  induction l with
  | nil => rfl
  | cons x xs ih =>
      simp only [stableSortDesc]
      rw [filter_insertDesc key x _ c (sorted_stableSortDesc key xs)]
      by_cases hxc : key x = c
      · simp [List.filter_cons, hxc, ih]
      · simp [List.filter_cons, hxc, ih]

theorem round2_le (x : ℚ) : round2 x ≤ x + 1/200 := by
  have h := Int.floor_le (x * 100 + 1/2)
  rw [round2]
  linarith

theorem round2_gt (x : ℚ) : x - 1/200 < round2 x := by
  have h := Int.lt_floor_add_one (x * 100 + 1/2)
  rw [round2]
  push_cast at h ⊢
  linarith

/-! ## Claim theorems -/

/-- The Scenario-1 shaped record: buy $200 (Amazon), sell $280, $5 shipping
scraped, everything else left to the defaults. -/
def resultBuy200Sell280 : ScriptResult :=
  ⟨none, none, some 200, none, some 280, none, none, some 5, none, none, none, none⟩

/-- C1 counterexample: on the buy $200 / sell $280 / $5-shipping record,
`displayResults` in `src/script.js` computes a net profit of 36, while the
claimed formula `gross − marketplaceFee − shippingFee − estimatedTax` gives
31 — the code does not subtract the shipping fee. -/
theorem C1_counterexample :
    scriptNetProfit resultBuy200Sell280 = 36 ∧
    specNetProfit (scriptSellPrice resultBuy200Sell280 - scriptBuyPrice resultBuy200Sell280)
        (specMarketplaceFee (scriptSellPrice resultBuy200Sell280))
        (scriptShipping resultBuy200Sell280)
        (specEstimatedTax (scriptBuyPrice resultBuy200Sell280)) = 31 ∧
    (36 : ℚ) ≠ 31 := by
  refine ⟨?_, ?_, by norm_num⟩ <;>
    norm_num [resultBuy200Sell280, scriptNetProfit, scriptProfit, scriptTax,
      scriptPlatformFee, scriptBuyPrice, scriptSellPrice, scriptShipping,
      specNetProfit, specMarketplaceFee, specEstimatedTax, jsOr]

/-- C1 (amended): when the back end supplies no precomputed profit fields,
`displayResults` in `src/script.js` computes the net profit as gross profit
minus marketplace fee minus estimated tax, with the shipping fee NOT
subtracted (so the $200/$280 example yields 36, not 31); the simulator in
`src/static/js/scan.js` computes its profit as gross profit minus
marketplace fee minus shipping fee, with NO estimated-tax term. -/
theorem C1_amended_netProfit :
    (∀ r : ScriptResult, r.netProfit = none → r.profit = none → r.platformFee = none →
        scriptNetProfit r =
          specNetProfit (scriptSellPrice r - scriptBuyPrice r)
            (specMarketplaceFee (scriptSellPrice r)) 0
            (specEstimatedTax (scriptBuyPrice r))) ∧
    (∀ r : SimRands,
        simProfit r =
          specNetProfit (simBaseSellPrice r - simBaseBuyPrice r)
            (simMarketplaceFee r) (simShippingFee r) 0) ∧
    scriptNetProfit resultBuy200Sell280 = 36 := by
  refine ⟨?_, ?_, ?_⟩
  · intro r h1 h2 h3
    simp only [scriptNetProfit, scriptProfit, scriptTax, scriptPlatformFee,
      specNetProfit, specMarketplaceFee, specEstimatedTax, h1, h2, h3, jsOr]
    ring
  · intro r
    simp only [simProfit, specNetProfit]
    ring
  · norm_num [resultBuy200Sell280, scriptNetProfit, scriptProfit, scriptTax,
      scriptPlatformFee, scriptBuyPrice, scriptSellPrice, jsOr]

/-- C1 witness: the amended formula evaluated on the concrete $200/$280
record. -/
theorem C1_witness :
    scriptNetProfit resultBuy200Sell280 =
      specNetProfit (scriptSellPrice resultBuy200Sell280 - scriptBuyPrice resultBuy200Sell280)
        (specMarketplaceFee (scriptSellPrice resultBuy200Sell280)) 0
        (specEstimatedTax (scriptBuyPrice resultBuy200Sell280)) :=
  C1_amended_netProfit.1 resultBuy200Sell280 rfl rfl rfl

/-- A fixed draw of the simulator's four random rolls, all zero: buy price
$50, markup 1.3, shipping $5, confidence 75. -/
def simRandZero : SimRands := ⟨0, 0, 0, 0⟩

/-- C2 counterexample: at the all-zero roll the simulator in
`src/static/js/scan.js` charges a marketplace fee of 7.8 (12% of the $65
sell price) where the claimed 10% model gives 6.5, and `displayDeals` in
`src/unnamed/part_001` uses a fixed $5.99 shipping, not the claimed $5. -/
theorem C2_counterexample :
    simMarketplaceFee simRandZero = 39/5 ∧
    specMarketplaceFee (simBaseSellPrice simRandZero) = 13/2 ∧
    (39/5 : ℚ) ≠ 13/2 ∧
    dealEstimatedShipping ≠ specShippingDefault := by
  refine ⟨?_, ?_, by norm_num, ?_⟩ <;>
    norm_num [simRandZero, simMarketplaceFee, simBaseSellPrice, simBaseBuyPrice,
      specMarketplaceFee, dealEstimatedShipping, specShippingDefault, floorQ]

/-- C2 (amended): the fee parameters differ across the code paths rather
than being identical — `src/script.js` uses 10% of sell price and 8% tax
with shipping defaulting to 0 (not $5); `displayDeals` in
`src/unnamed/part_001` uses 8% tax and a fixed $5.99 shipping with no
marketplace fee at all; the simulator in `src/static/js/scan.js` uses 12%
of sell price and a $5–$14 random shipping with no tax term. -/
theorem C2_amended_feeModel :
    (∀ r : ScriptResult, r.platformFee = none →
        scriptPlatformFee r = specMarketplaceFee (scriptSellPrice r)) ∧
    (∀ r : ScriptResult, scriptTax r = specEstimatedTax (scriptBuyPrice r)) ∧
    (∀ r : ScriptResult, r.buyShipping = none → scriptShipping r = 0) ∧
    (∀ d : Deal, dealEstimatedTax d = specEstimatedTax d.buyPrice) ∧
    dealEstimatedShipping = 599/100 ∧
    (∀ d : Deal, dealNetProfit d =
        specNetProfit (d.sellPrice - d.buyPrice) 0 dealEstimatedShipping
          (dealEstimatedTax d)) ∧
    (∀ r : SimRands, simMarketplaceFee r = simBaseSellPrice r * (12/100)) ∧
    (∀ r : SimRands, 0 ≤ r.shippingRoll → r.shippingRoll < 1 →
        5 ≤ simShippingFee r ∧ simShippingFee r ≤ 14) := by
  refine ⟨?_, ?_, ?_, ?_, rfl, ?_, fun r => rfl, ?_⟩
  · intro r h
    simp [scriptPlatformFee, specMarketplaceFee, jsOr, h]
  · intro r
    simp [scriptTax, specEstimatedTax]
  · intro r h
    simp [scriptShipping, jsOr, h]
  · intro d
    simp [dealEstimatedTax, specEstimatedTax]
  · intro d
    simp only [dealNetProfit, dealTotalCost, specNetProfit]
    ring
  · intro r hs1 hs2
    have h10 : r.shippingRoll * 10 < 10 := by nlinarith
    have h0 : (0:ℚ) ≤ r.shippingRoll * 10 := by nlinarith
    have hf0 : (0:ℤ) ≤ Int.floor (r.shippingRoll * 10) := Int.floor_nonneg.mpr h0
    have hf9 : Int.floor (r.shippingRoll * 10) ≤ 9 := by
      have : Int.floor (r.shippingRoll * 10) < 10 := by
        rw [Int.floor_lt]
        exact_mod_cast h10
      omega
    constructor
    · simp only [simShippingFee, floorQ]
      have hc : (0:ℚ) ≤ ((Int.floor (r.shippingRoll * 10) : ℤ) : ℚ) := by
        exact_mod_cast hf0
      linarith
    · simp only [simShippingFee, floorQ]
      have hc : ((Int.floor (r.shippingRoll * 10) : ℤ) : ℚ) ≤ 9 := by
        exact_mod_cast hf9
      linarith

/-- C2 witness: the per-path fee facts evaluated at concrete inputs. -/
theorem C2_witness :
    scriptPlatformFee ScriptResult.empty = specMarketplaceFee (scriptSellPrice ScriptResult.empty) ∧
    scriptShipping ScriptResult.empty = 0 ∧
    (5 ≤ simShippingFee simRandZero ∧ simShippingFee simRandZero ≤ 14) :=
  ⟨C2_amended_feeModel.1 ScriptResult.empty rfl,
   C2_amended_feeModel.2.2.1 ScriptResult.empty rfl,
   C2_amended_feeModel.2.2.2.2.2.2.2 simRandZero (by norm_num [simRandZero])
     (by norm_num [simRandZero])⟩

/-- C3 counterexample: at the all-zero roll the simulator reports a
profit percentage of 4.4 (profit over buy price alone), while the claimed
formula `netProfit / (buyPrice + estimatedTax + shippingFee) × 100` gives
220/59 with the 8%-of-buy tax, and 4 even with a zero tax. -/
theorem C3_counterexample :
    simProfitPercentage simRandZero = 22/5 ∧
    specRoiPercent (simProfit simRandZero) (simBaseBuyPrice simRandZero)
        (specEstimatedTax (simBaseBuyPrice simRandZero)) (simShippingFee simRandZero) =
      220/59 ∧
    specRoiPercent (simProfit simRandZero) (simBaseBuyPrice simRandZero) 0
        (simShippingFee simRandZero) = 4 ∧
    (22/5 : ℚ) ≠ 220/59 ∧ (22/5 : ℚ) ≠ 4 := by
  refine ⟨?_, ?_, ?_, by norm_num, by norm_num⟩ <;>
    norm_num [simRandZero, simProfitPercentage, simProfit, simBaseSellPrice,
      simBaseBuyPrice, simMarketplaceFee, simShippingFee, specRoiPercent,
      specEstimatedTax, floorQ]

/-- C3 (amended): `displayResults` in `src/script.js` and `displayDeals` in
`src/unnamed/part_001` compute the ROI percentage as net profit over
`buyPrice + estimatedTax + shippingFee` times 100, exactly the spec formula,
but the simulator in `src/static/js/scan.js` divides by the buy price alone,
with neither tax nor shipping in the denominator. -/
theorem C3_amended_roi :
    (∀ r : ScriptResult,
        scriptRoi r =
          specRoiPercent (scriptNetProfit r) (scriptBuyPrice r) (scriptTax r)
            (scriptShipping r)) ∧
    (∀ d : Deal,
        dealNetProfitPercentage d =
          specRoiPercent (dealNetProfit d) d.buyPrice (dealEstimatedTax d)
            dealEstimatedShipping) ∧
    (∀ r : SimRands, simProfitPercentage r = simProfit r / simBaseBuyPrice r * 100) :=
  ⟨fun _ => rfl, fun _ => rfl, fun _ => rfl⟩

/-- C4: a scan over subcategories whose listing batches are all empty yields
zero qualifying opportunities and terminates in the normal state
`completed_no_results` (not `failed`); the polling UI of
`src/static/js/scan.js` treats that status as a terminal completion, and
`displayResults` in `src/unnamed/part_010` renders the empty list as the
no-results message without any failure path. -/
theorem C4_empty_scan_completed_no_results
    (subLists : List (String × List Listing))
    (h : ∀ p ∈ subLists, p.2 = ([] : List Listing)) :
    (runScan subLists).status = "completed_no_results" ∧
    (runScan subLists).status ≠ "failed" ∧
    (runScan subLists).opportunities = [] ∧
    displayResultsP010 (runScan subLists).opportunities = RenderOutcome.noResultsMessage ∧
    monitorTerminalCheck 100 (runScan subLists).status = true := by
  have hopp : (subLists.map (fun p => buildOpportunities p.2 p.1)).flatten = [] := by
    rw [List.flatten_eq_nil_iff]
    intro x hx
    rcases List.mem_map.mp hx with ⟨p, hp, rfl⟩
    rw [h p hp]
    rfl
  have hscan : runScan subLists = ⟨[], "completed_no_results"⟩ := by
    simp [runScan, hopp, stableSortDesc]
  rw [hscan]
  refine ⟨rfl, by simp, rfl, rfl, ?_⟩
  simp only [monitorTerminalCheck]
  norm_num

/-- C4 witness: one subcategory whose scraper returned no listings. -/
theorem C4_witness :
    (runScan [("Headphones", [])]).status = "completed_no_results" ∧
    (runScan [("Headphones", [])]).status ≠ "failed" ∧
    (runScan [("Headphones", [])]).opportunities = [] ∧
    displayResultsP010 (runScan [("Headphones", [])]).opportunities =
      RenderOutcome.noResultsMessage ∧
    monitorTerminalCheck 100 (runScan [("Headphones", [])]).status = true :=
  C4_empty_scan_completed_no_results [("Headphones", [])] (by
    intro p hp
    rcases List.mem_singleton.mp hp with rfl
    rfl)

/-- A roll that makes the simulator produce its dearest buy price ($449)
with the minimum markup: large absolute profit, small ROI. -/
def rollHighPrice : SimRands := ⟨399/400, 0, 0, 0⟩

/-- A roll that makes the simulator produce its cheapest buy price ($50)
with a 75% markup: small absolute profit, large ROI. -/
def rollLowPrice : SimRands := ⟨0, 9/10, 0, 0⟩

/-- C5 counterexample: on these two draws the simulator's output is sorted
by `profit` (59.66 before 22) and is NOT descending in `profitPercentage`
(13.29 before 44), so `profitPercentage` is not the sort key. -/
theorem C5_counterexample :
    ¬ (generateSimulatedResults [rollHighPrice, rollLowPrice]).Sorted
        (fun a b => b.profitPercentage ≤ a.profitPercentage) := by
  have h : generateSimulatedResults [rollHighPrice, rollLowPrice] =
      [⟨449, 5837/10, 5966/100, 1329/100, 7004/100, 5, 75⟩,
       ⟨50, 875/10, 22, 44, 105/10, 5, 75⟩] := by
    norm_num [generateSimulatedResults, stableSortDesc, insertDesc, simOpportunity,
      simBaseBuyPrice, simBaseSellPrice, simMarketplaceFee, simShippingFee,
      simProfit, simProfitPercentage, simConfidence, round2, floorQ,
      rollHighPrice, rollLowPrice]
  rw [h]
  intro hs
  rw [List.sorted_cons] at hs
  have := hs.1 ⟨50, 875/10, 22, 44, 105/10, 5, 75⟩ (by simp)
  norm_num at this

/-- C5 (amended): the simulator's final list is a stable sort of the
generated opportunities on the `profit` key (not `profitPercentage`, and no
requested-key parameter exists), descending: the output is a permutation of
the input, descending in `profit`, and opportunities with equal `profit`
keep their original relative order (filtering either list to any one profit
value gives identical sequences). -/
theorem C5_amended_stable_sort_by_profit :
    (∀ rolls : List SimRands,
        (generateSimulatedResults rolls).Perm (rolls.map simOpportunity)) ∧
    (∀ rolls : List SimRands,
        (generateSimulatedResults rolls).Sorted (fun a b => b.profit ≤ a.profit)) ∧
    (∀ (rolls : List SimRands) (c : ℚ),
        (generateSimulatedResults rolls).filter (fun o => o.profit == c) =
          (rolls.map simOpportunity).filter (fun o => o.profit == c)) :=
  ⟨fun rolls => stableSortDesc_perm SimOpportunity.profit (rolls.map simOpportunity),
   fun rolls => sorted_stableSortDesc SimOpportunity.profit (rolls.map simOpportunity),
   fun rolls c => filter_stableSortDesc SimOpportunity.profit (rolls.map simOpportunity) c⟩

/-- C6: the submit handler in `src/unnamed/part_001` starts a scan only for
1 to 5 selected subcategories; zero or more than five selected
subcategories are rejected with an alert before any scan starts. -/
theorem C6_subcategory_count_bounds :
    (∀ (category : String) (subs : List String) (c : String) (s : List String),
        scanFormSubmit category subs = SubmitOutcome.scanStarted c s →
        1 ≤ s.length ∧ s.length ≤ 5) ∧
    (∀ (category : String) (subs : List String),
        (subs.length = 0 ∨ 5 < subs.length) →
        ∀ (c : String) (s : List String),
          scanFormSubmit category subs ≠ SubmitOutcome.scanStarted c s) := by
  constructor
  · intro category subs c s h
    simp only [scanFormSubmit] at h
    split at h
    · exact SubmitOutcome.noConfusion h
    · split at h
      · exact SubmitOutcome.noConfusion h
      · split at h
        · exact SubmitOutcome.noConfusion h
        · rename_i hcat h0 h5
          injection h with hc hs
          subst hs
          omega
  · intro category subs hlen c s h
    simp only [scanFormSubmit] at h
    split at h
    · exact SubmitOutcome.noConfusion h
    · split at h
      · rename_i hcat h0
        exact SubmitOutcome.noConfusion h
      · split at h
        · exact SubmitOutcome.noConfusion h
        · rename_i hcat h0 h5
          rcases hlen with h' | h'
          · exact h0 h'
          · exact h5 h'

/-- C6 witness: a single selected subcategory starts the scan and satisfies
the bounds. -/
theorem C6_witness :
    1 ≤ (["Headphones"] : List String).length ∧
      (["Headphones"] : List String).length ≤ 5 :=
  C6_subcategory_count_bounds.1 "Tech" ["Headphones"] "Tech" ["Headphones"] rfl

/-- C7: for every draw of the simulator's random rolls, the buy price is
strictly lower than the sell price — both for the raw generated prices and
for the rounded prices stored on the opportunity — so no generated pair
ever has the buy side at or above the sell side. -/
theorem C7_buy_lt_sell (r : SimRands)
    (h1 : 0 ≤ r.priceRoll) (h2 : r.priceRoll < 1)
    (h3 : 0 ≤ r.markupRoll) (h4 : r.markupRoll < 1) :
    simBaseBuyPrice r < simBaseSellPrice r ∧
    (simOpportunity r).buyPrice < (simOpportunity r).sellPrice := by
  have hb : (50:ℚ) ≤ simBaseBuyPrice r := by
    simp only [simBaseBuyPrice, floorQ]
    have hz : (0:ℤ) ≤ Int.floor (r.priceRoll * 400) :=
      Int.floor_nonneg.mpr (by nlinarith)
    have hc : (0:ℚ) ≤ ((Int.floor (r.priceRoll * 400) : ℤ) : ℚ) := by exact_mod_cast hz
    linarith
  have hbpos : (0:ℚ) ≤ simBaseBuyPrice r := by linarith
  have hsell : simBaseBuyPrice r + 15 ≤ simBaseSellPrice r := by
    simp only [simBaseSellPrice]
    nlinarith [mul_nonneg hbpos h3]
  constructor
  · linarith
  · have hle := round2_le (simBaseBuyPrice r)
    have hgt := round2_gt (simBaseSellPrice r)
    simp only [simOpportunity]
    linarith

/-- C7 witness: the all-zero roll gives buy $50 against sell $65. -/
theorem C7_witness :
    simBaseBuyPrice simRandZero < simBaseSellPrice simRandZero ∧
    (simOpportunity simRandZero).buyPrice < (simOpportunity simRandZero).sellPrice :=
  C7_buy_lt_sell simRandZero (by norm_num [simRandZero]) (by norm_num [simRandZero])
    (by norm_num [simRandZero]) (by norm_num [simRandZero])

/-- C8: in `src/unnamed/part_010`, every successful result fetch passes a
freshly created empty array to `displayResults`, so the no-results message
is always rendered and the response's `arbitrage_opportunities` content is
discarded (the outcome does not depend on the response at all). -/
theorem C8_results_discarded :
    (∀ (α : Type) (resultsData : ScanResponse α),
        fetchScanResultsOnSuccessP010 resultsData = RenderOutcome.noResultsMessage) ∧
    (∀ (α : Type) (d1 d2 : ScanResponse α),
        fetchScanResultsOnSuccessP010 d1 = fetchScanResultsOnSuccessP010 d2) :=
  ⟨fun _ _ => rfl, fun _ _ _ => rfl⟩

/-- C9: the success handler of every progress poll in `src/unnamed/part_010`
trips over the unbound identifier `resultsData` and lands in the error
branch no matter what the server answered, and five consecutive successful
polls therefore abort the scan UI with the lost-connection toast. -/
theorem C9_poll_reference_error :
    (∀ d : ProgressData,
        pollSuccessHandlerP010 d =
          PollTickResult.caught "ReferenceError: resultsData is not defined") ∧
    (∀ d1 d2 d3 d4 d5 : ProgressData,
        pollRunP010 [d1, d2, d3, d4, d5] =
          ⟨5, false, some "Lost connection to server. Please try again."⟩) := by
  constructor
  · intro d
    rfl
  · intro d1 d2 d3 d4 d5
    rfl

/-- A record whose `confidence` field is 0 but whose `similarity_score` is
90. -/
def resultConfZero : ScriptResult :=
  ⟨none, none, none, none, none, none, none, none, none, none, some 0, some 90⟩

/-- C10 counterexample: in `src/script.js`, an opportunity whose confidence
field is 0 but whose similarity score is 90 is displayed with 90 — neither
the hard-coded default 85 nor 0 — so a 0 confidence is not always replaced
by the default. -/
theorem C10_counterexample :
    scriptConfidence resultConfZero = 90 ∧
    resultConfZero.confidence = some 0 ∧
    (90:ℚ) ≠ 85 ∧ (90:ℚ) ≠ 0 := by
  refine ⟨?_, rfl, by norm_num, by norm_num⟩
  norm_num [resultConfZero, scriptConfidence, jsOr]

/-- Helper: a falsy-coalescing chain with a nonzero default never yields 0. -/
theorem jsOr_ne_zero (v : Option ℚ) (d : ℚ) (hd : d ≠ 0) : jsOr v d ≠ 0 := by
  cases v with
  | none => simpa [jsOr] using hd
  | some x =>
      simp only [jsOr]
      split
      · exact hd
      · rename_i hx
        exact hx

/-- C10 (amended): in each display variant, an opportunity whose confidence
AND similarity fields are both 0 or missing is shown with the hard-coded
default (85 in `src/script.js`, 70 in `src/static/js/connector.js` and
`src/unnamed/part_010`), and the displayed value is never 0 — but when the
companion coalescing field is nonzero, that value is shown rather than the
default, because the display uses falsy-coalescing `||` over both fields. -/
theorem C10_amended_confidence_default :
    (∀ r : ScriptResult,
        (r.confidence = none ∨ r.confidence = some 0) →
        (r.similarity_score = none ∨ r.similarity_score = some 0) →
        scriptConfidence r = 85) ∧
    (∀ f : CardFields,
        (f.similarity = none ∨ f.similarity = some 0) →
        (f.confidence = none ∨ f.confidence = some 0) →
        connectorSimilarity f = 70 ∧ part010Similarity f = 70) ∧
    (∀ r : ScriptResult, scriptConfidence r ≠ 0) ∧
    (∀ f : CardFields, connectorSimilarity f ≠ 0 ∧ part010Similarity f ≠ 0) := by
  refine ⟨?_, ?_, ?_, ?_⟩
  · intro r hc hs
    rcases hc with hc | hc <;> rcases hs with hs | hs <;>
      simp [scriptConfidence, jsOr, hc, hs]
  · intro f hs hc
    rcases hs with hs | hs <;> rcases hc with hc | hc <;>
      constructor <;> simp [connectorSimilarity, part010Similarity, jsOr, hs, hc]
  · intro r
    exact jsOr_ne_zero _ _ (jsOr_ne_zero _ _ (by norm_num))
  · intro f
    exact ⟨jsOr_ne_zero _ _ (jsOr_ne_zero _ _ (by norm_num)),
      jsOr_ne_zero _ _ (jsOr_ne_zero _ _ (by norm_num))⟩

/-- C10 witness: a 0 confidence with no similarity value displays the
defaults in all three variants. -/
theorem C10_witness :
    scriptConfidence ⟨none, none, none, none, none, none, none, none, none, none,
      some 0, none⟩ = 85 ∧
    connectorSimilarity ⟨none, some 0⟩ = 70 ∧
    part010Similarity ⟨none, some 0⟩ = 70 :=
  ⟨C10_amended_confidence_default.1
      ⟨none, none, none, none, none, none, none, none, none, none, some 0, none⟩
      (Or.inr rfl) (Or.inl rfl),
   (C10_amended_confidence_default.2.1 ⟨none, some 0⟩ (Or.inl rfl) (Or.inr rfl)).1,
   (C10_amended_confidence_default.2.1 ⟨none, some 0⟩ (Or.inl rfl) (Or.inr rfl)).2⟩
